import Mathlib

/-!
Verification of kupfer's object core (src/kupfer/objects.py): the
Leaf/Action/Source capability model, the source caching policy, catalog
composition, the content drill-down protocol and repr-based source identity.

Python strings are modelled as Lean String; the string operations the code
uses from os.path are re-implemented here over the underlying character
lists so that all statements evaluate inside the kernel.
-/

namespace Kupfer

/-- Splits a character list at every slash, keeping empty components,
mirroring str.split used by posixpath (e.g. "/a/b" gives ["", "a", "b"]). -/
def splitOnSlash : List Char → List (List Char)
  | [] => [[]]
  | c :: rest =>
    let r := splitOnSlash rest
    if c = '/' then [] :: r
    else
      match r with
      | [] => [[c]]
      | h :: t => (c :: h) :: t

/-- Model of the external collaborator os.path.basename for POSIX paths:
everything after the last slash (empty when the path ends in a slash). -/
def basename (p : String) : String :=
  ⟨((splitOnSlash p.data).getLast?).getD p.data⟩

/-- Lexicographic strict order on character lists by code point, the order
Python uses to compare strings. -/
def charListLt : List Char → List Char → Bool
  | [], [] => false
  | [], _ :: _ => true
  | _ :: _, [] => false
  | a :: as, b :: bs => if a < b then true else if b < a then false else charListLt as bs

/-- Python string comparison a < b. -/
def strLt (a b : String) : Bool := charListLt a.data b.data

/-- Inserts a string into an already sorted list, before the first element
it is not greater than (stable, as Python sorted is). -/
def insortStr (x : String) : List String → List String
  | [] => [x]
  | y :: ys => if strLt y x then y :: insortStr x ys else x :: y :: ys

/-- Model of Python sorted() on a list of strings: stable ascending sort. -/
def sortStrs : List String → List String
  | [] => []
  | x :: xs => insortStr x (sortStrs xs)

/-- Model of " ".join(xs). -/
def joinSpace : List String → String
  | [] => ""
  | [x] => x
  | x :: xs => x ++ " " ++ joinSpace xs

/-- Error kinds raised by the module: the four Error subclasses declared at
the top of objects.py, plus the Python AttributeError that escapes when a
source method is called on a non-source object. -/
inductive PyErr where
  | noParent
  | noContent
  | invalidData
  | invalidLeaf
  | attributeError
deriving DecidableEq

/-- Configuration of the concrete Source subclasses whose identity the
claims exercise.  A Source's identity is its class together with the
constructor arguments that its repr exposes. -/
inductive SrcCfg where
  | fileSource (dirlist : List String) (depth : Nat)
  | directorySource (dir : String)
deriving DecidableEq

/-- Display name computed by each constructor.  FileSource.__init__ takes
basename(dirlist[0]) and appends " et al" when more than one directory is
given (Python raises IndexError on an empty dirlist; the model returns ""
there, a case no claim uses).  DirectorySource.__init__ takes
basename(dir) or, when that is empty, the directory string itself. -/
def srcName : SrcCfg → String
  | .fileSource dirlist _ =>
    (match dirlist with
     | [] => ""
     | d :: _ => basename d) ++ (if dirlist.length > 1 then (" et al") else "")
  | .directorySource dir =>
    let b := basename dir
    if b = "" then dir else b

/-- Python class name of the configuration, used by repr. -/
def srcTypeName : SrcCfg → String
  | .fileSource .. => ("FileSource")
  | .directorySource .. => ("DirectorySource")

/-- repr of a source.  FileSource overrides __repr__ with its sorted
dirlist and depth; DirectorySource inherits KupferObject.__repr__, which
interpolates the class name and str(self) = self.name. -/
def srcRepr : SrcCfg → String
  | .fileSource dirlist depth =>
    "<FileSource " ++ joinSpace (sortStrs dirlist) ++ " depth=" ++ toString depth ++ ">"
  | .directorySource dir =>
    "<" ++ srcTypeName (.directorySource dir) ++ " " ++ srcName (.directorySource dir) ++ ">"

/-- Python type(self) == type(other) for the modelled source classes. -/
def sameType : SrcCfg → SrcCfg → Bool
  | .fileSource .., .fileSource .. => true
  | .directorySource .., .directorySource .. => true
  | _, _ => false

/-- Source.__eq__: same concrete class and equal reprs. -/
def source_eq (a b : SrcCfg) : Bool :=
  sameType a b && (srcRepr a == srcRepr b)

/-- Source.__hash__: hash(repr(self)).  The Python string hash is opaque,
so it is taken as a parameter; every choice of h yields the same value on
sources with equal reprs. -/
def source_hash (h : String → Nat) (s : SrcCfg) : Nat :=
  h (srcRepr s)

/-- Joins path components back with slashes (no leading slash). -/
def joinComps : List (List Char) → List Char
  | [] => []
  | [c] => c
  | c :: cs => c ++ '/' :: joinComps cs

/-- One step of posixpath.normpath component processing on an absolute
path: empty and "." components are dropped, ".." pops the last collected
component (or is dropped at the root), anything else is kept. -/
def normStep (acc : List (List Char)) (c : List Char) : List (List Char) :=
  if c = [] || c = ['.'] then acc
  else if c = ['.', '.'] then acc.dropLast
  else acc ++ [c]

/-- Model of the external collaborator os.path.normpath, restricted to
absolute paths with a single leading slash (the only inputs the claims
need; the Python special case of exactly two leading slashes and the
relative-path case do not occur). -/
def normpath (p : String) : String :=
  ⟨'/' :: joinComps ((splitOnSlash p.data).foldl normStep [])⟩

/-- Model of os.path.join(dir, os.path.pardir) for POSIX paths. -/
def joinPardir (dir : String) : String :=
  if dir.data = [] then ("..")
  else if dir.data.getLast? = some '/' then dir ++ ".."
  else dir ++ "/.."

/-- DirectorySource._parent_path: normpath(join(directory, pardir)). -/
def parent_path (dir : String) : String :=
  normpath (joinPardir dir)

/-- Model of the external collaborator os.path.samefile on a filesystem
without symbolic or hard links: two paths name the same file exactly when
they normalize to the same absolute path. -/
def samefile (a b : String) : Bool :=
  normpath a == normpath b

/-- DirectorySource.has_parent: the directory is not its own parent. -/
def dirSource_has_parent (dir : String) : Bool :=
  ! samefile dir (parent_path dir)

/-- Possible outcomes of a get_parent call: the NoParent exception, a
plain Python bool (what DirectorySource.get_parent actually returns at the
root, since it returns FileSource.has_parent(self) there), or a fresh
parent source. -/
inductive ParentResult where
  | raisedNoParent
  | pyBool (b : Bool)
  | parentSource (s : SrcCfg)
deriving DecidableEq

/-- Source.has_parent: always False on the base class. -/
def source_has_parent : Bool := false

/-- Source.get_parent: unconditionally raises NoParent. -/
def source_get_parent : ParentResult := .raisedNoParent

/-- DirectorySource.get_parent, exactly as written: when has_parent is
false it returns the value of FileSource.has_parent(self) — the inherited
Source.has_parent, i.e. the boolean False — instead of raising; otherwise
it builds a fresh DirectorySource on the parent path. -/
def dirSource_get_parent (dir : String) : ParentResult :=
  if ! dirSource_has_parent dir then .pyBool source_has_parent
  else .parentSource (.directorySource (parent_path dir))

/-- Observable state of one Source object for the caching state machine:
whether is_dynamic() holds, the sequence the underlying get_items
enumeration would currently yield, and the cached_items attribute
(initialized to None in Source.__init__). -/
structure SrcState (α : Type) where
  is_dynamic : Bool
  get_items : List α
  cached_items : Option (List α)
deriving DecidableEq

/-- Python truthiness of the cached_items attribute: None and the empty
list are both falsy. -/
def optTruthy : Option (List α) → Bool
  | none => false
  | some [] => false
  | some (_ :: _) => true

/-- Result of one get_leaves call: the returned leaves, the source state
afterwards, and whether the underlying get_items enumeration ran. -/
structure LeavesOut (α : Type) where
  leaves : List α
  state : SrcState α
  ran_get_items : Bool
deriving DecidableEq

/-- Source.get_leaves: a dynamic source always re-enumerates; a static
source re-enumerates and stores the materialized list when cached_items is
falsy (None or empty) or force_update is set, and otherwise returns the
cache untouched. -/
def get_leaves (s : SrcState α) (force_update : Bool) : LeavesOut α :=
  if s.is_dynamic then ⟨s.get_items, s, true⟩
  else if ! optTruthy s.cached_items || force_update then
    ⟨s.get_items, { s with cached_items := some s.get_items }, true⟩
  else ⟨s.cached_items.getD [], s, false⟩

/-- MultiSource.is_dynamic: unconditionally True. -/
def multiSource_is_dynamic : Bool := true

/-- MultiSource.get_items: calls get_leaves() (force_update defaulting to
False) on every child in list order and chains the results, returning the
concatenation together with the children's updated states. -/
def multiSource_get_items : List (SrcState α) → List α × List (SrcState α)
  | [] => ([], [])
  | s :: rest =>
    let o := get_leaves s false
    let r := multiSource_get_items rest
    (o.leaves ++ r.1, o.state :: r.2)

/-- The Leaf subclasses of objects.py, carrying the constructor data the
claims need.  The obj of a FileLeaf is its path; a SourceLeaf wraps a
source object. -/
inductive Leaf (α : Type) where
  | fileLeaf (obj : String)
  | sourceLeaf (obj : SrcState α)
  | dummyLeaf
  | appLeaf (name : String)
  | urlLeaf (obj : String) (name : String)
deriving DecidableEq

/-- has_content: False on the Leaf base class (inherited by DummyLeaf,
AppLeaf and UrlLeaf), path.isdir(self.object) on FileLeaf — isdir is the
external filesystem collaborator, passed as a predicate — and True on
SourceLeaf. -/
def has_content (isdir : String → Bool) : Leaf α → Bool
  | .fileLeaf p => isdir p
  | .sourceLeaf _ => true
  | _ => false

/-- A provider value as returned by content_source: either a freshly
constructed DirectorySource on a path, or the source object a SourceLeaf
wraps. -/
inductive ProviderVal (α : Type) where
  | directorySource (dir : String)
  | sourceObj (s : SrcState α)
deriving DecidableEq

/-- content_source: the Leaf base class raises NoContent; FileLeaf returns
DirectorySource(self.object) when the path is a directory and defers to
the base class otherwise; SourceLeaf returns the wrapped source. -/
def content_source (isdir : String → Bool) : Leaf α → Except PyErr (ProviderVal α)
  | .fileLeaf p => if isdir p then .ok (.directorySource p) else .error .noContent
  | .sourceLeaf s => .ok (.sourceObj s)
  | _ => .error .noContent

/-- The Action subclasses of objects.py. -/
inductive ActionKind where
  | echo
  | openWith
  | openUrl
  | show
  | openDirectory
  | revealFile
  | openTerminal
  | dragbox
  | launch
  | execute
  | searchInside
  | rescanSource
  | dummyAction
deriving DecidableEq

/-- is_factory: only SearchInside overrides the base class's False with
True (RescanSource restates False explicitly). -/
def is_factory : ActionKind → Bool
  | .searchInside => true
  | _ => false

/-- SourceLeaf.get_actions: yields SearchInside always and RescanSource
only when the wrapped source is not dynamic. -/
def sourceLeaf_get_actions (s : SrcState α) : List ActionKind :=
  .searchInside :: (if s.is_dynamic then [] else [.rescanSource])

/-- Equality of Except values is decidable when both component types have
decidable equality. -/
instance exceptDecEq {ε β : Type} [DecidableEq ε] [DecidableEq β] :
    DecidableEq (Except ε β) := fun x y =>
  match x, y with
  | .ok a, .ok b =>
    if h : a = b then .isTrue (by rw [h]) else .isFalse (fun hh => by cases hh; exact h rfl)
  | .error a, .error b =>
    if h : a = b then .isTrue (by rw [h]) else .isFalse (fun hh => by cases hh; exact h rfl)
  | .ok _, .error _ => .isFalse (fun hh => by cases hh)
  | .error _, .ok _ => .isFalse (fun hh => by cases hh)

/-- Result of one activate call: the returned value (None for effectful
actions, a provider for a successful factory call) or the raised error,
the leaf afterwards (RescanSource mutates the wrapped source's cache), and
whether any underlying get_items enumeration ran. -/
structure ActOutcome (α : Type) where
  result : Except PyErr (Option (ProviderVal α))
  leaf : Leaf α
  ran_get_items : Bool
deriving DecidableEq

/-- activate for every Action subclass.  SearchInside raises InvalidLeaf
on a contentless leaf and otherwise returns leaf.content_source().
RescanSource raises InvalidLeaf on a contentless leaf; on a SourceLeaf it
calls get_leaves(force_update=True) unless the source is dynamic, in which
case it does nothing; on any other content-bearing leaf (a FileLeaf on a
directory) leaf.object is a string and source.is_dynamic() raises
AttributeError.  Every other action performs an external side effect and
returns None. -/
def activate (isdir : String → Bool) : ActionKind → Leaf α → ActOutcome α
  | .searchInside, l =>
    if has_content isdir l then ⟨(content_source isdir l).map some, l, false⟩
    else ⟨.error .invalidLeaf, l, false⟩
  | .rescanSource, l =>
    if has_content isdir l then
      match l with
      | .sourceLeaf s =>
        if s.is_dynamic then ⟨.ok none, .sourceLeaf s, false⟩
        else
          let o := get_leaves s true
          ⟨.ok none, .sourceLeaf o.state, o.ran_get_items⟩
      | l' => ⟨.error .attributeError, l', false⟩
    else ⟨.error .invalidLeaf, l, false⟩
  | _, l => ⟨.ok none, l, false⟩

/-- The two accessors KupferObject.get_icon consults: get_pixbuf returns
None or an image handle (modelled as a number), get_icon_name returns None
or a themed icon name. -/
structure IconSpec where
  get_pixbuf : Option Nat
  get_icon_name : Option String
deriving DecidableEq

/-- What get_icon resolves to: the raw pixbuf, a named icon looked up at
the object's icon size through icons.get_icon_for_name, or None. -/
inductive Icon where
  | pixbufIcon (p : Nat)
  | namedIcon (name : String) (size : Nat)
  | noIcon
deriving DecidableEq

/-- Python truthiness of a string: the empty string is falsy. -/
def pyTruthy (s : String) : Bool := ! s.data.isEmpty

/-- KupferObject.get_icon: try get_pixbuf first, then get_icon_name, then
fall through to None.  A returned empty icon name is falsy and also falls
through. -/
def get_icon (o : IconSpec) (icon_size : Nat) : Icon :=
  match o.get_pixbuf with
  | some p => .pixbufIcon p
  | none =>
    match o.get_icon_name with
    | some n => if pyTruthy n then .namedIcon n icon_size else .noIcon
    | none => .noIcon

/-- Helper: a leaf with content yields a provider from content_source. -/
theorem content_source_of_has_content (isdir : String → Bool) (l : Leaf α)
    (h : has_content isdir l = true) : ∃ p, content_source isdir l = .ok p := by
  cases l with
  | fileLeaf p =>
    simp only [has_content] at h
    exact ⟨.directorySource p, by simp [content_source, h]⟩
  | sourceLeaf s => exact ⟨.sourceObj s, rfl⟩
  | dummyLeaf => exact Bool.noConfusion h
  | appLeaf n => exact Bool.noConfusion h
  | urlLeaf o n => exact Bool.noConfusion h

/-- Helper: RescanSource.activate never returns a provider, whatever the
leaf: it returns None, raises InvalidLeaf, or crashes with AttributeError. -/
theorem rescan_result_not_provider (isdir : String → Bool) (l : Leaf α) (p : ProviderVal α) :
    (activate isdir .rescanSource l).result ≠ .ok (some p) := by
  cases l with
  | sourceLeaf s =>
    by_cases hd : s.is_dynamic <;> simp [activate, has_content, hd]
  | fileLeaf q =>
    by_cases hq : isdir q <;> simp [activate, has_content, hq]
  | dummyLeaf => simp [activate, has_content]
  | appLeaf n => simp [activate, has_content]
  | urlLeaf o n => simp [activate, has_content]

/-- C1: the FileSource on dirlist ["/a", "/b"] with depth 2 and the one on
["/b", "/a"] with depth 2 compare equal and hash identically for every
string hash, while the FileSource on ["/a"] with depth 1 is equal to
neither. -/
theorem C1_fileSource_identity :
    source_eq (.fileSource ["/a", "/b"] 2) (.fileSource ["/b", "/a"] 2) = true ∧
    (∀ h : String → Nat,
      source_hash h (.fileSource ["/a", "/b"] 2) = source_hash h (.fileSource ["/b", "/a"] 2)) ∧
    source_eq (.fileSource ["/a"] 1) (.fileSource ["/a", "/b"] 2) = false ∧
    source_eq (.fileSource ["/a"] 1) (.fileSource ["/b", "/a"] 2) = false :=
  ⟨by decide,
   fun h => congrArg h (show srcRepr (.fileSource ["/a", "/b"] 2)
      = srcRepr (.fileSource ["/b", "/a"] 2) by decide),
   by decide, by decide⟩

/-- C2 counterexample: on a static source whose first enumeration yields
the empty list, the first get_leaves call populates cached_items with [],
yet the next get_leaves(force_update=False) call runs get_items again —
the claim promised no re-execution after an enumeration has occurred. -/
theorem C2_empty_cache_refutes_stability :
    (get_leaves (⟨false, ([] : List Nat), none⟩ : SrcState Nat) false).state.cached_items
        = some [] ∧
    (get_leaves (get_leaves (⟨false, ([] : List Nat), none⟩ : SrcState Nat) false).state
        false).ran_get_items = true := by decide

/-- C2 amended: for a static source whose cache holds a non-empty
sequence, get_leaves(force_update=False) returns exactly the cached
sequence, leaves the state unchanged (so every later non-forced call
behaves identically until a forced one), and does not run the underlying
get_items enumeration, whatever get_items would now yield. -/
theorem C2_cached_nonempty_stable (s : SrcState α) (c : List α)
    (hdyn : s.is_dynamic = false) (hc : s.cached_items = some c) (hne : c ≠ []) :
    get_leaves s false = ⟨c, s, false⟩ := by
  have ht : optTruthy (some c) = true := by
    cases c with
    | nil => exact absurd rfl hne
    | cons a t => rfl
  simp [get_leaves, hdyn, hc, ht]

/-- C2 amended, witness: a static source caching [7] returns [7] untouched
and without re-enumeration even though get_items now yields [5]. -/
theorem C2_cached_nonempty_stable_witness :
    get_leaves (⟨false, [5], some [7]⟩ : SrcState Nat) false
      = ⟨[7], ⟨false, [5], some [7]⟩, false⟩ :=
  C2_cached_nonempty_stable (⟨false, [5], some [7]⟩ : SrcState Nat) [7] rfl rfl (by decide)

/-- C3: the base Source raises NoParent from get_parent, and at the
filesystem root a DirectorySource indeed reports has_parent() false — but
its get_parent() then returns the boolean value of FileSource.has_parent
(False) instead of raising NoParent, contradicting the base-class contract
the claim (and the spec) state. -/
theorem C3_root_get_parent_returns_bool :
    source_has_parent = false ∧
    source_get_parent = ParentResult.raisedNoParent ∧
    dirSource_has_parent ("/") = false ∧
    dirSource_get_parent ("/") = ParentResult.pyBool false := by decide

/-- C4: an item without content raises NoContent from content_source and
an item with content yields a provider; in particular a FileLeaf on a
directory path yields the DirectorySource on that path and a SourceLeaf
yields its wrapped source. -/
theorem C4_content_round_trip (isdir : String → Bool) (l : Leaf α) :
    (has_content isdir l = false → content_source isdir l = .error .noContent) ∧
    (has_content isdir l = true → ∃ p, content_source isdir l = .ok p) ∧
    (∀ d, isdir d = true →
        content_source isdir (Leaf.fileLeaf d : Leaf α) = .ok (.directorySource d)) ∧
    (∀ s : SrcState α, content_source isdir (.sourceLeaf s) = .ok (.sourceObj s)) := by
  refine ⟨?_, content_source_of_has_content isdir l, ?_, fun s => rfl⟩
  · intro h
    cases l with
    | fileLeaf p =>
      simp only [has_content] at h
      simp [content_source, h]
    | sourceLeaf s => exact Bool.noConfusion h
    | dummyLeaf => rfl
    | appLeaf n => rfl
    | urlLeaf o n => rfl
  · intro d hd
    simp [content_source, hd]

/-- C4 witness: a FileLeaf on a non-directory path raises NoContent, and
on a directory path content_source yields the DirectorySource. -/
theorem C4_content_round_trip_witness :
    content_source (fun _ => false) (Leaf.fileLeaf ("/d") : Leaf Nat) = .error .noContent ∧
    content_source (fun _ => true) (Leaf.fileLeaf ("/d") : Leaf Nat)
        = .ok (.directorySource ("/d")) :=
  ⟨(C4_content_round_trip (fun _ => false) (Leaf.fileLeaf ("/d") : Leaf Nat)).1 rfl,
   (C4_content_round_trip (fun _ => true) (Leaf.dummyLeaf : Leaf Nat)).2.2.1 ("/d") rfl⟩

/-- C5: a non-factory action's activate never returns a provider, the
factory action applied to an item with content always returns one, and
SearchInside and RescanSource both raise InvalidLeaf on an item without
content. -/
theorem C5_factory_contract (isdir : String → Bool) (a : ActionKind) (l : Leaf α) :
    (is_factory a = false → ∀ p, (activate isdir a l).result ≠ .ok (some p)) ∧
    (is_factory a = true → has_content isdir l = true →
        ∃ p, (activate isdir a l).result = .ok (some p)) ∧
    ((a = .searchInside ∨ a = .rescanSource) → has_content isdir l = false →
        (activate isdir a l).result = .error .invalidLeaf) := by
  refine ⟨?_, ?_, ?_⟩
  · intro hf p hres
    cases a
    case searchInside => exact absurd hf (by decide)
    case rescanSource => exact rescan_result_not_provider isdir l p hres
    all_goals simp [activate] at hres
  · intro hf hc
    cases a
    case searchInside =>
      obtain ⟨p, hp⟩ := content_source_of_has_content isdir l hc
      exact ⟨p, by simp [activate, hc, hp, Except.map]⟩
    all_goals exact absurd hf (by decide)
  · intro ha hc
    rcases ha with h | h <;> subst h <;> simp [activate, hc]

/-- C5 witness: RescanSource (non-factory) on a SourceLeaf does not return
a provider, SearchInside on a directory FileLeaf does, and SearchInside on
a contentless FileLeaf raises InvalidLeaf. -/
theorem C5_factory_contract_witness :
    ((activate (fun _ => true) .rescanSource
        (Leaf.sourceLeaf (⟨true, [1], none⟩ : SrcState Nat))).result
        ≠ .ok (some (.sourceObj ⟨true, [1], none⟩))) ∧
    (∃ p, (activate (fun _ => true) .searchInside (Leaf.fileLeaf ("/d") : Leaf Nat)).result
        = .ok (some p)) ∧
    (activate (fun _ => false) .searchInside (Leaf.fileLeaf ("/d") : Leaf Nat)).result
        = .error .invalidLeaf :=
  ⟨(C5_factory_contract (fun _ => true) .rescanSource
      (Leaf.sourceLeaf (⟨true, [1], none⟩ : SrcState Nat))).1 rfl _,
   (C5_factory_contract (fun _ => true) .searchInside (Leaf.fileLeaf ("/d") : Leaf Nat)).2.1
      rfl rfl,
   (C5_factory_contract (fun _ => false) .searchInside (Leaf.fileLeaf ("/d") : Leaf Nat)).2.2
      (Or.inl rfl) rfl⟩

/-- C6: MultiSource is unconditionally dynamic and its enumeration is the
ordered concatenation of each child's get_leaves() result in child-list
order; in particular children yielding [1, 2] and [3] enumerate to
[1, 2, 3]. -/
theorem C6_multiSource_concatenation (srcs : List (SrcState α)) :
    (multiSource_get_items srcs).1
        = (srcs.map fun s => (get_leaves s false).leaves).flatten ∧
    multiSource_is_dynamic = true ∧
    (multiSource_get_items
        [(⟨false, [1, 2], none⟩ : SrcState Nat), ⟨true, [3], none⟩]).1 = [1, 2, 3] := by
  refine ⟨?_, rfl, by decide⟩
  induction srcs with
  | nil => rfl
  | cons s rest ih => simp [multiSource_get_items, ih]

/-- C7: icon resolution tries the raw-image accessor first, falls back to
the symbolic-name accessor only when the image accessor yields nothing,
and yields the fixed default (no icon) only when both accessors yield
nothing. -/
theorem C7_icon_precedence (o : IconSpec) (sz : Nat) :
    (∀ p, o.get_pixbuf = some p → get_icon o sz = .pixbufIcon p) ∧
    (∀ n, o.get_pixbuf = none → o.get_icon_name = some n → pyTruthy n = true →
        get_icon o sz = .namedIcon n sz) ∧
    (o.get_pixbuf = none → (o.get_icon_name = none ∨ o.get_icon_name = some ("")) →
        get_icon o sz = .noIcon) := by
  obtain ⟨pb, inm⟩ := o
  refine ⟨?_, ?_, ?_⟩
  · intro p hp
    simp only at hp
    subst hp
    rfl
  · intro n hp hn ht
    simp only at hp hn
    subst hp
    subst hn
    simp [get_icon, ht]
  · intro hp hn
    simp only at hp
    subst hp
    rcases hn with h | h <;> simp only at h <;> subst h <;> rfl

/-- C7 witness: with both accessors set the pixbuf wins, without a pixbuf
the name is used at the object's icon size, and with neither there is no
icon. -/
theorem C7_icon_precedence_witness :
    get_icon ⟨some 5, some ("folder")⟩ 96 = .pixbufIcon 5 ∧
    get_icon ⟨none, some ("folder")⟩ 96 = .namedIcon ("folder") 96 ∧
    get_icon ⟨none, none⟩ 96 = .noIcon :=
  ⟨(C7_icon_precedence ⟨some 5, some ("folder")⟩ 96).1 5 rfl,
   (C7_icon_precedence ⟨none, some ("folder")⟩ 96).2.1 ("folder") rfl rfl rfl,
   (C7_icon_precedence ⟨none, none⟩ 96).2.2 rfl (Or.inl rfl)⟩

/-- C8: RescanSource.activate on a SourceLeaf wrapping a dynamic source
returns None, leaves the source untouched and runs no enumeration; on a
static source it forces a re-enumeration that replaces the cache with the
current get_items result; and SourceLeaf.get_actions offers RescanSource
exactly for non-dynamic sources. -/
theorem C8_rescan_dynamic_noop (isdir : String → Bool) (s : SrcState α) :
    (s.is_dynamic = true →
        activate isdir .rescanSource (.sourceLeaf s) = ⟨.ok none, .sourceLeaf s, false⟩) ∧
    (s.is_dynamic = false →
        activate isdir .rescanSource (.sourceLeaf s)
          = ⟨.ok none, .sourceLeaf (get_leaves s true).state, true⟩ ∧
        (get_leaves s true).state.cached_items = some s.get_items) ∧
    sourceLeaf_get_actions s
        = (if s.is_dynamic then [.searchInside] else [.searchInside, .rescanSource]) := by
  refine ⟨?_, ?_, ?_⟩
  · intro hd
    simp [activate, has_content, hd]
  · intro hd
    constructor
    · simp [activate, has_content, hd, get_leaves]
    · simp [get_leaves, hd]
  · cases h : s.is_dynamic <;> simp [sourceLeaf_get_actions, h]

/-- C8 witness: rescanning a dynamic source is a no-op, rescanning a
static source re-enumerates and replaces its stale cache. -/
theorem C8_rescan_dynamic_noop_witness :
    activate (fun _ => true) .rescanSource (Leaf.sourceLeaf (⟨true, [1], none⟩ : SrcState Nat))
        = ⟨.ok none, .sourceLeaf ⟨true, [1], none⟩, false⟩ ∧
    activate (fun _ => true) .rescanSource
        (Leaf.sourceLeaf (⟨false, [2], some [9]⟩ : SrcState Nat))
        = ⟨.ok none, .sourceLeaf (get_leaves (⟨false, [2], some [9]⟩ : SrcState Nat) true).state,
            true⟩ :=
  ⟨(C8_rescan_dynamic_noop (fun _ => true) (⟨true, [1], none⟩ : SrcState Nat)).1 rfl,
   ((C8_rescan_dynamic_noop (fun _ => true) (⟨false, [2], some [9]⟩ : SrcState Nat)).2.1 rfl).1⟩

/-- C9 counterexample: "/a/" and "/b/" are distinct directory paths with
the same (empty) basename, yet the two DirectorySource providers are not
equal, because the display name falls back to the full path when the
basename is empty. -/
theorem C9_empty_basename_refutes :
    basename ("/a/") = basename ("/b/") ∧ ("/a/" : String) ≠ "/b/" ∧
    source_eq (.directorySource ("/a/")) (.directorySource ("/b/")) = false := by decide

/-- C9 amended: two DirectorySource providers on paths sharing the same
non-empty basename compare equal and hash identically for every string
hash, since their display name, hence their repr, is that basename. -/
theorem C9_same_basename_equal (d1 d2 : String)
    (hb : basename d1 = basename d2) (hne : basename d1 ≠ "") :
    source_eq (.directorySource d1) (.directorySource d2) = true ∧
    ∀ h : String → Nat,
      source_hash h (.directorySource d1) = source_hash h (.directorySource d2) := by
  have h2 : basename d2 ≠ "" := hb ▸ hne
  have hname : srcName (.directorySource d1) = srcName (.directorySource d2) := by
    simp [srcName, hne, h2, hb]
  have hrepr : srcRepr (.directorySource d1) = srcRepr (.directorySource d2) := by
    simp [srcRepr, srcTypeName, hname]
  refine ⟨?_, fun h => congrArg h hrepr⟩
  rw [source_eq, hrepr]
  simp [sameType]

/-- C9 amended, witness: the DirectorySource providers on "/a/bin" and
"/b/bin" are equal. -/
theorem C9_same_basename_equal_witness :
    source_eq (.directorySource ("/a/bin")) (.directorySource ("/b/bin")) = true :=
  (C9_same_basename_equal ("/a/bin") ("/b/bin") (by decide) (by decide)).1

/-- C10: a static source whose cache holds the empty list behaves exactly
as if no cache were present: every get_leaves call gives the same outcome
as with cached_items = None, and the non-forced call re-runs the
underlying get_items enumeration. -/
theorem C10_empty_cache_like_absent (s : SrcState α) (f : Bool)
    (hdyn : s.is_dynamic = false) (hc : s.cached_items = some []) :
    get_leaves s f = get_leaves { s with cached_items := none } f ∧
    (get_leaves s false).ran_get_items = true := by
  constructor
  · simp [get_leaves, hdyn, hc, optTruthy]
  · simp [get_leaves, hdyn, hc, optTruthy]

/-- C10 witness: a static source caching [] re-enumerates like an uncached
one. -/
theorem C10_empty_cache_like_absent_witness :
    get_leaves (⟨false, [3], some []⟩ : SrcState Nat) false
        = get_leaves (⟨false, [3], none⟩ : SrcState Nat) false ∧
    (get_leaves (⟨false, [3], some []⟩ : SrcState Nat) false).ran_get_items = true := by
  have h := C10_empty_cache_like_absent (⟨false, [3], some []⟩ : SrcState Nat) false rfl rfl
  exact ⟨h.1, h.2⟩

end Kupfer
